import Mathlib

/-!
Shallow embedding of the `job-listings` repository (three Python execution
scripts: `scrape_linkedin.py`, `scrape_monster.py`, `send_daily_emails.py`)
together with proofs about its normalization, upsert, polling, title
resolution and digest-delivery logic.

Conventions of the embedding:
* raw scraper records (Python dicts) become a structure of `Option String`
  fields, `none` modelling an absent key (`dict.get` returning the default);
* HTTP interactions become oracles: a function giving the status code or
  payload of the n-th request, or an `Except` value where the Python call can
  raise (`Except.error` models an uncaught Python exception propagating);
* Python string slicing `s[:5000]` becomes `List.take` on the character list;
  Python `s.split('/')` becomes an explicit structural splitter.
-/

namespace JobListings

/-- A raw scraper record, modelling the Python dict returned by the Apify
actor.  Each field is `none` when the corresponding key is absent (so that
`raw.f.getD d` models `job.get('f', d)`). -/
structure RawJob where
  jobId : Option String := none
  id : Option String := none
  title : Option String := none
  jobTitle : Option String := none
  company : Option String := none
  companyName : Option String := none
  location : Option String := none
  description : Option String := none
  jobUrl : Option String := none
  url : Option String := none
  salary : Option String := none
  search_title : Option String := none
deriving DecidableEq, Repr

/-- The canonical job record sent to the `jobs` table (the `db_job` dict in
both scrapers' `save_to_supabase`). -/
structure DbJob where
  external_id : String
  source : String
  title : String
  company : String
  location : String
  description : String
  url : String
  salary : Option String
  search_title : String
deriving DecidableEq, Repr

/-- Python `(… or '')[:5000]` on the description: take the first 5000
characters of the string. -/
def truncate5000 (s : String) : String := ⟨s.data.take 5000⟩

/-- Embedding of `scrape_linkedin.py` lines 115-125: the `db_job` built from one raw job.
`job.get('jobId', job.get('id', ''))` is the nested-default lookup. -/
def linkedin_db_job (job : RawJob) : DbJob :=
  { external_id := "linkedin_" ++ job.jobId.getD (job.id.getD "")
    source := "linkedin"
    title := job.title.getD ""
    company := job.company.getD ""
    location := job.location.getD ""
    description := truncate5000 (job.description.getD "")
    url := job.jobUrl.getD (job.url.getD "")
    salary := job.salary
    search_title := job.search_title.getD "" }

/-- Python `a or b` for `a : Option String` where `None` and `""` are falsy:
returns `b` unless `a` is present and non-empty. -/
def orTruthy (a : Option String) (b : String) : String :=
  match a with
  | none => b
  | some s => if s = "" then b else s

/-- Python `s.split('/')` (separator split: `""` yields `[""]`, the result is
never empty).  `acc` is the current segment, reversed. -/
def splitSlashAux : List Char → List Char → List String
  | [], acc => [⟨acc.reverse⟩]
  | c :: cs, acc =>
    if c = '/' then ⟨acc.reverse⟩ :: splitSlashAux cs []
    else splitSlashAux cs (c :: acc)

/-- Python `s.split('/')[-1]`: the last segment of the slash-split (the
default is never used since the split is never empty). -/
def lastSlashSegment (s : String) : String :=
  (splitSlashAux s.data []).getLastD ""

/-- Embedding of `scrape_monster.py` line 123:
`job.get('jobId') or job.get('id') or job.get('jobUrl', '').split('/')[-1]`. -/
def monster_job_id (job : RawJob) : String :=
  orTruthy job.jobId (orTruthy job.id (lastSlashSegment (job.jobUrl.getD "")))

/-- Embedding of `scrape_monster.py` lines 125-135: the `db_job` built from one raw job. -/
def monster_db_job (job : RawJob) : DbJob :=
  { external_id := "monster_" ++ monster_job_id job
    source := "monster"
    title := job.jobTitle.getD (job.title.getD "")
    company := job.companyName.getD (job.company.getD "")
    location := job.location.getD ""
    description := truncate5000 (job.description.getD "")
    url := job.jobUrl.getD (job.url.getD "")
    salary := job.salary
    search_title := job.search_title.getD "" }

/-- How `save_to_supabase` reacts to one upsert response (both scrapers,
lines 134-140 / 144-150): 200 and 201 are counted as saved, 409 is an
expected duplicate handled silently, anything else only logs a warning and
skips that job. -/
inductive UpsertOutcome
  | saved
  | dupHandled
  | skippedLogged
deriving DecidableEq, Repr

/-- Classify one HTTP status code the way the `save_to_supabase` loop body
does. -/
def classify (status : Nat) : UpsertOutcome :=
  if status = 200 ∨ status = 201 then .saved
  else if status = 409 then .dupHandled
  else .skippedLogged

/-- The `save_to_supabase` counting loop: `resp i` is the HTTP status code the
store returned for the upsert request of the `i`-th job; `saved_count` is
incremented exactly on 200/201.  The loop body cannot raise on any status
code, so the function is total over the whole list. -/
def save_to_supabase_from (resp : Nat → Nat) : Nat → List DbJob → Nat
  | _, [] => 0
  | i, _ :: rest =>
    (if resp i = 200 ∨ resp i = 201 then 1 else 0) + save_to_supabase_from resp (i + 1) rest

/-- Model of `save_to_supabase(jobs)`: upsert each job individually, return the number
of newly-inserted rows. -/
def save_to_supabase (resp : Nat → Nat) (jobs : List DbJob) : Nat :=
  save_to_supabase_from resp 0 jobs

/-- Instrumentation of the same loop: the per-job outcome, in order.  One
entry per job — the loop never aborts early. -/
def save_trace (resp : Nat → Nat) : Nat → List DbJob → List UpsertOutcome
  | _, [] => []
  | i, _ :: rest => classify (resp i) :: save_trace resp (i + 1) rest

theorem save_trace_eq (resp : Nat → Nat) :
    ∀ (jobs : List DbJob) (i : Nat),
      save_trace resp i jobs = (List.range jobs.length).map (fun k => classify (resp (i + k))) := by
  intro jobs
  induction jobs with
  | nil => intro i; rfl
  | cons j rest ih =>
    intro i
    simp only [save_trace, List.length_cons, List.range_succ_eq_map, List.map_cons,
      List.map_map, Nat.add_zero, ih (i + 1)]
    congr 1
    apply List.map_congr_left
    intro k _
    simp only [Function.comp]
    have hk : i + 1 + k = i + k.succ := by omega
    rw [hk]

theorem save_count_eq_trace (resp : Nat → Nat) :
    ∀ (jobs : List DbJob) (i : Nat),
      save_to_supabase_from resp i jobs = (save_trace resp i jobs).countP (· = .saved) := by
  intro jobs
  induction jobs with
  | nil => intro i; rfl
  | cons j rest ih =>
    intro i
    simp only [save_to_supabase_from, save_trace, List.countP_cons, ih (i + 1)]
    by_cases h : resp i = 200 ∨ resp i = 201
    · simp [classify, h, Nat.add_comm]
    · simp only [if_neg h, Nat.zero_add, classify]
      by_cases h9 : resp i = 409 <;> simp [h9]

/-- Response oracle and job list used to exercise `save_to_supabase` on a
concrete batch: statuses 201, 409, 500, 200 for four upsert requests. -/
def respW : Nat → Nat :=
  fun i => if i = 0 then 201 else if i = 1 then 409 else if i = 2 then 500 else 200

/-- A concrete batch of four canonical jobs (all-default raw records). -/
def jobsW : List DbJob := List.replicate 4 (linkedin_db_job {})

/-- C1: `save_to_supabase` submits one upsert request per job — the outcome
trace has exactly one entry per job, in order, so no response ever aborts the
rest of the batch — and returns exactly the number of requests answered with
status 200 or 201; a 409 conflict response is classified as a handled
duplicate (not counted, never an error), and any other status only marks that
single job as skipped-and-logged. -/
theorem save_to_supabase_spec (resp : Nat → Nat) (jobs : List DbJob) :
    save_to_supabase resp jobs
        = ((List.range jobs.length).filter (fun i => decide (resp i = 200 ∨ resp i = 201))).length
      ∧ (save_trace resp 0 jobs).length = jobs.length
      ∧ save_trace resp 0 jobs = (List.range jobs.length).map (fun i => classify (resp i))
      ∧ (∀ i, classify (resp i) = .saved ↔ (resp i = 200 ∨ resp i = 201))
      ∧ (∀ i, resp i = 409 → classify (resp i) = .dupHandled) := by
  have htrace : save_trace resp 0 jobs
      = (List.range jobs.length).map (fun i => classify (resp i)) := by
    rw [save_trace_eq]
    simp
  refine ⟨?_, ?_, htrace, ?_, ?_⟩
  · rw [save_to_supabase, save_count_eq_trace, htrace, ← List.countP_eq_length_filter,
      List.countP_map]
    apply List.countP_congr
    intro i _
    simp only [Function.comp, classify]
    by_cases h : resp i = 200 ∨ resp i = 201
    · simp [h]
    · by_cases h9 : resp i = 409 <;> simp [h, h9]
  · rw [htrace]; simp
  · intro i
    simp only [classify]
    by_cases h : resp i = 200 ∨ resp i = 201
    · simp [h]
    · by_cases h9 : resp i = 409 <;> simp [h, h9]
  · intro i h
    simp [classify, h]

/-- Witness for `save_to_supabase_spec` on the concrete batch `jobsW` with
responses `respW` (201, 409, 500, 200). -/
theorem save_to_supabase_spec_witness :
    save_to_supabase respW jobsW = 2 ∧ classify (respW 1) = .dupHandled :=
  ⟨(save_to_supabase_spec respW jobsW).1.trans (by decide),
   (save_to_supabase_spec respW jobsW).2.2.2.2 1 rfl⟩

/-- The Apify run statuses that keep the polling loop going
(`while status in ['RUNNING', 'READY'] and waited < max_wait`). -/
def isInProgress (s : String) : Bool := s == "RUNNING" || s == "READY"

/-- The environment one title's scrape interacts with in `run_apify_actor`:
the initial status returned by the run-start request
(`run_data['data']['status']`), the status returned by the n-th polling GET,
and the dataset-items GET.  `Except.error` models the underlying HTTP call or
JSON decoding raising a Python exception. -/
structure TitleOracle where
  submit : Except String String
  statusAt : Nat → Except String String
  dataset : Except String (List RawJob)

/-- The polling loop of `run_apify_actor` (both scrapers):
`while status in ['RUNNING','READY'] and waited < max_wait`, with
`max_wait = 300` and `waited += 5` per cycle before the status GET.  Returns
the final status, the total wait and the number of polling GETs performed; an
exception raised by a polling GET propagates (there is no handler). -/
def poll_loop (statusAt : Nat → Except String String) (status : String)
    (waited polls : Nat) : Except String (String × Nat × Nat) :=
  if h : isInProgress status = true ∧ waited < 300 then
    match statusAt polls with
    | .error e => .error e
    | .ok s => poll_loop statusAt s (waited + 5) (polls + 1)
  else .ok (status, waited, polls)
termination_by 300 - waited
decreasing_by have := h.2; omega

theorem poll_loop_stop (statusAt : Nat → Except String String) (status : String)
    (waited polls : Nat) (h : ¬(isInProgress status = true ∧ waited < 300)) :
    poll_loop statusAt status waited polls = .ok (status, waited, polls) := by
  rw [poll_loop, dif_neg h]

theorem poll_loop_step (statusAt : Nat → Except String String) (status s : String)
    (waited polls : Nat) (hin : isInProgress status = true) (hw : waited < 300)
    (hs : statusAt polls = .ok s) :
    poll_loop statusAt status waited polls = poll_loop statusAt s (waited + 5) (polls + 1) := by
  rw [poll_loop, dif_pos ⟨hin, hw⟩, hs]

theorem poll_loop_step_err (statusAt : Nat → Except String String) (status : String)
    (waited polls : Nat) (e : String) (hin : isInProgress status = true)
    (hw : waited < 300) (hs : statusAt polls = .error e) :
    poll_loop statusAt status waited polls = .error e := by
  rw [poll_loop, dif_pos ⟨hin, hw⟩, hs]

/-- With a status endpoint that always answers `RUNNING`, the loop starting
at `waited = 300 - 5k` performs exactly `k` more polls and stops at
`waited = 300`. -/
theorem poll_loop_always_running (statusAt : Nat → Except String String)
    (hst : ∀ n, statusAt n = .ok "RUNNING") :
    ∀ k polls, k ≤ 60 →
      poll_loop statusAt "RUNNING" (300 - 5 * k) polls = .ok ("RUNNING", 300, polls + k) := by
  intro k
  induction k with
  | zero =>
    intro polls _
    have h300 : 300 - 5 * 0 = 300 := by norm_num
    rw [h300, Nat.add_zero]
    exact poll_loop_stop statusAt "RUNNING" 300 polls (fun hc => absurd hc.2 (by omega))
  | succ k ih =>
    intro polls hk
    have hw : 300 - 5 * (k + 1) < 300 := by omega
    rw [poll_loop_step statusAt "RUNNING" "RUNNING" (300 - 5 * (k + 1)) polls rfl hw
      (hst polls)]
    have harith : 300 - 5 * (k + 1) + 5 = 300 - 5 * k := by omega
    rw [harith, ih (polls + 1) (by omega)]
    have hp : polls + 1 + k = polls + (k + 1) := by omega
    rw [hp]

/-- Starting from any in-progress initial status, an always-`RUNNING` status
endpoint makes the loop stop after exactly 60 polls and 300 time-units. -/
theorem poll_loop_ceiling (statusAt : Nat → Except String String) (s0 : String)
    (hin : isInProgress s0 = true) (hst : ∀ n, statusAt n = .ok "RUNNING") :
    poll_loop statusAt s0 0 0 = .ok ("RUNNING", 300, 60) := by
  rw [poll_loop_step statusAt s0 "RUNNING" 0 0 hin (by omega) (hst 0)]
  have h := poll_loop_always_running statusAt hst 59 1 (by omega)
  norm_num at h
  exact h

/-- Per-title instrumentation of `run_apify_actor`: the jobs appended to the
aggregate for this title, the number of polling GETs, the total wait, the
number of dataset-items retrievals attempted (0 or 1), and whether the run
reached `SUCCEEDED`. -/
structure TitleOutcome where
  jobs : List RawJob
  polls : Nat
  waited : Nat
  retrievals : Nat
  succeeded : Bool
deriving DecidableEq, Repr

/-- One iteration of the per-title loop of `run_apify_actor`: start the run,
poll until the status leaves the in-progress set or the ceiling is reached,
then — only if the final status is `SUCCEEDED` — fetch the dataset items and
tag each with the search title; a non-`SUCCEEDED` final status just logs a
warning and contributes no jobs (`continue`).  Any raised exception
propagates: the loop body has no try/except. -/
def process_title (title : String) (o : TitleOracle) : Except String TitleOutcome :=
  match o.submit with
  | .error e => .error e
  | .ok st0 =>
    match poll_loop o.statusAt st0 0 0 with
    | .error e => .error e
    | .ok (st, waited, polls) =>
      if st ≠ "SUCCEEDED" then
        .ok { jobs := [], polls := polls, waited := waited, retrievals := 0,
              succeeded := false }
      else
        match o.dataset with
        | .error e => .error e
        | .ok js =>
          .ok { jobs := js.map (fun j => { j with search_title := some title }),
                polls := polls, waited := waited, retrievals := 1, succeeded := true }

/-- Model of `run_apify_actor(job_titles)`: process the titles sequentially,
aggregating per-title outcomes; an exception raised while processing one
title propagates out of the whole run (caught only in `main`, which exits). -/
def run_apify_actor (oracle : String → TitleOracle) :
    List String → Except String (List (String × TitleOutcome))
  | [] => .ok []
  | t :: rest =>
    match process_title t (oracle t) with
    | .error e => .error e
    | .ok out =>
      match run_apify_actor oracle rest with
      | .error e => .error e
      | .ok outs => .ok ((t, out) :: outs)

theorem process_title_ok_submit (title : String) (o : TitleOracle) (s0 : String)
    (hsub : o.submit = .ok s0) :
    process_title title o =
      match poll_loop o.statusAt s0 0 0 with
      | .error e => .error e
      | .ok (st, waited, polls) =>
        if st ≠ "SUCCEEDED" then
          .ok { jobs := [], polls := polls, waited := waited, retrievals := 0,
                succeeded := false }
        else
          match o.dataset with
          | .error e => .error e
          | .ok js =>
            .ok { jobs := js.map (fun j => { j with search_title := some title }),
                  polls := polls, waited := waited, retrievals := 1,
                  succeeded := true } := by
  unfold process_title
  rw [hsub]

theorem run_apify_actor_cons (oracle : String → TitleOracle) (t : String)
    (rest : List String) :
    run_apify_actor oracle (t :: rest) =
      match process_title t (oracle t) with
      | .error e => .error e
      | .ok out =>
        match run_apify_actor oracle rest with
        | .error e => .error e
        | .ok outs => .ok ((t, out) :: outs) := rfl

/-- C4: for a title whose run-status endpoint always reports the in-progress
status `RUNNING`, the polling loop stops after exactly 60 poll cycles (300
time-units of fixed 5-unit waits) without raising, zero dataset retrievals
are attempted for that title, and the run moves on to the remaining titles
instead of stopping. -/
theorem poll_ceiling_title_skipped (oracle : String → TitleOracle) (t : String)
    (rest : List String) (outs : List (String × TitleOutcome)) (s0 : String)
    (hsub : (oracle t).submit = .ok s0) (hin : isInProgress s0 = true)
    (hst : ∀ n, (oracle t).statusAt n = .ok "RUNNING")
    (hrest : run_apify_actor oracle rest = .ok outs) :
    process_title t (oracle t) = .ok ⟨[], 60, 300, 0, false⟩
    ∧ run_apify_actor oracle (t :: rest)
        = .ok ((t, ⟨[], 60, 300, 0, false⟩) :: outs) := by
  have hpt : process_title t (oracle t) = .ok ⟨[], 60, 300, 0, false⟩ := by
    rw [process_title_ok_submit t (oracle t) s0 hsub, poll_loop_ceiling _ s0 hin hst]
    simp
  refine ⟨hpt, ?_⟩
  rw [run_apify_actor_cons, hpt, hrest]

/-- A title oracle that is forever `RUNNING`: every status poll reports an
in-progress run. -/
def stuckOracle : TitleOracle :=
  { submit := .ok "RUNNING", statusAt := fun _ => .ok "RUNNING", dataset := .ok [] }

/-- The constant stuck oracle, for every title. -/
def stuckWorld : String → TitleOracle := fun _ => stuckOracle

/-- Witness for `poll_ceiling_title_skipped`: a concrete forever-running
title. -/
theorem poll_ceiling_title_skipped_witness :
    process_title "Data Engineer" (stuckWorld "Data Engineer") = .ok ⟨[], 60, 300, 0, false⟩
    ∧ run_apify_actor stuckWorld ["Data Engineer"]
        = .ok [("Data Engineer", ⟨[], 60, 300, 0, false⟩)] :=
  poll_ceiling_title_skipped stuckWorld "Data Engineer" [] [] "RUNNING"
    rfl rfl (fun _ => rfl) rfl

/-- A title oracle whose polling GET raises a connection error. -/
def pollErrOracle : TitleOracle :=
  { submit := .ok "RUNNING", statusAt := fun _ => .error "ConnectionError",
    dataset := .ok [] }

/-- A title oracle whose run succeeds immediately with one raw job. -/
def fineOracle : TitleOracle :=
  { submit := .ok "SUCCEEDED", statusAt := fun _ => .ok "SUCCEEDED",
    dataset := .ok [{ jobId := some "A1" }] }

/-- Two-title world: polling for `"t1"` raises, `"t2"` would succeed. -/
def mixedOracle : String → TitleOracle :=
  fun t => if t = "t1" then pollErrOracle else fineOracle

/-- C6 counterexample: an error raised while polling the first title's run
status is NOT caught — the whole multi-title run aborts with that error, so
the second title is never processed (its job never appears in any result). -/
theorem run_error_counterexample :
    run_apify_actor mixedOracle ["t1", "t2"] = .error "ConnectionError" := by
  have ho : mixedOracle "t1" = pollErrOracle := rfl
  have h1 : process_title "t1" (mixedOracle "t1") = .error "ConnectionError" := by
    rw [ho, process_title_ok_submit "t1" pollErrOracle "RUNNING" rfl,
      poll_loop_step_err pollErrOracle.statusAt "RUNNING" 0 0
        "ConnectionError" rfl (by omega) rfl]
  rw [run_apify_actor_cons, h1]

/-- C6 amended: an error raised while polling run status or while retrieving
results for one title propagates and aborts the whole multi-title run exactly
like a submission error — the remaining titles are not processed; only a
terminal non-success *status* is isolated per title (logged, retrieval
skipped, remaining titles still processed). -/
theorem per_title_error_policy (oracle : String → TitleOracle) (t : String)
    (rest : List String) :
    (∀ e, process_title t (oracle t) = .error e →
        run_apify_actor oracle (t :: rest) = .error e)
    ∧ (∀ out, process_title t (oracle t) = .ok out →
        run_apify_actor oracle (t :: rest)
          = (run_apify_actor oracle rest).map (fun outs => (t, out) :: outs))
    ∧ (∀ s0 e, (oracle t).submit = .ok s0 → isInProgress s0 = true →
        (oracle t).statusAt 0 = .error e → process_title t (oracle t) = .error e)
    ∧ (∀ e, (oracle t).submit = .ok "SUCCEEDED" → (oracle t).dataset = .error e →
        process_title t (oracle t) = .error e) := by
  refine ⟨?_, ?_, ?_, ?_⟩
  · intro e h
    rw [run_apify_actor_cons, h]
  · intro out h
    rw [run_apify_actor_cons, h]
    cases hrest : run_apify_actor oracle rest <;> simp [Except.map]
  · intro s0 e hsub hin hs
    rw [process_title_ok_submit t (oracle t) s0 hsub,
      poll_loop_step_err _ s0 0 0 e hin (by omega) hs]
  · intro e hsub hd
    rw [process_title_ok_submit t (oracle t) "SUCCEEDED" hsub,
      poll_loop_stop _ "SUCCEEDED" 0 0 (by simp [isInProgress])]
    simp [hd]

/-- Witness for `per_title_error_policy`: the concrete two-title world whose
first title's poll raises. -/
theorem per_title_error_policy_witness :
    run_apify_actor mixedOracle ["t1", "t2"] = Except.error "ConnectionError" :=
  (per_title_error_policy mixedOracle "t1" ["t2"]).1 "ConnectionError"
    ((per_title_error_policy mixedOracle "t1" ["t2"]).2.2.1 "RUNNING" "ConnectionError"
      rfl rfl rfl)

theorem truncate5000_length_le (s : String) : (truncate5000 s).length ≤ 5000 := by
  show (s.data.take 5000).length ≤ 5000
  simp

/-- C5: normalization is total — for any raw listing, with arbitrarily many
missing fields, both scripts' transforms always produce a complete canonical
record: missing string fields default to the empty string, missing salary
stays `none`, and the description is truncated to at most 5000 characters
rather than rejected. -/
theorem normalize_total (raw : RawJob) :
    (monster_db_job raw).description.length ≤ 5000
    ∧ (linkedin_db_job raw).description.length ≤ 5000
    ∧ (raw.jobTitle = none → raw.title = none → (monster_db_job raw).title = "")
    ∧ (raw.companyName = none → raw.company = none → (monster_db_job raw).company = "")
    ∧ (raw.location = none → (monster_db_job raw).location = "")
    ∧ (raw.description = none → (monster_db_job raw).description = ""
        ∧ (linkedin_db_job raw).description = "")
    ∧ (raw.salary = none → (monster_db_job raw).salary = none
        ∧ (linkedin_db_job raw).salary = none)
    ∧ (raw.search_title = none → (monster_db_job raw).search_title = "")
    ∧ (raw.title = none → (linkedin_db_job raw).title = "")
    ∧ (raw.company = none → (linkedin_db_job raw).company = "") := by
  refine ⟨truncate5000_length_le _, truncate5000_length_le _, ?_, ?_, ?_, ?_, ?_, ?_, ?_, ?_⟩
  · intro h1 h2; simp [monster_db_job, h1, h2]
  · intro h1 h2; simp [monster_db_job, h1, h2]
  · intro h1; simp [monster_db_job, h1]
  · intro h1
    constructor <;> simp [monster_db_job, linkedin_db_job, h1, truncate5000]
  · intro h1; constructor <;> simp [monster_db_job, linkedin_db_job, h1]
  · intro h1; simp [monster_db_job, h1]
  · intro h1; simp [linkedin_db_job, h1]
  · intro h1; simp [linkedin_db_job, h1]

/-- Witness for `normalize_total`: the raw record with every field absent. -/
theorem normalize_total_witness :
    (monster_db_job {}).title = "" ∧ (monster_db_job {}).salary = none
    ∧ (linkedin_db_job {}).description = ""
    ∧ (monster_db_job {}).description.length ≤ 5000 := by
  obtain ⟨c1, c2, c3, c4, c5, c6, c7, c8, c9, c10⟩ := normalize_total {}
  exact ⟨c3 rfl rfl, (c7 rfl).1, (c6 rfl).2, c1⟩

/-- A LinkedIn raw record with no explicit id field, only a listing URL whose
final path segment is `12345`. -/
def rawUrlOnly : RawJob := { jobUrl := some "https://x.com/jobs/view/12345" }

/-- C7 counterexample: for a raw listing with no `jobId`/`id` the LinkedIn
script does NOT derive the native id from the listing URL's final path
segment — its external id degenerates to `"linkedin_"` (empty native id),
not `"linkedin_12345"`. -/
theorem external_id_counterexample :
    (linkedin_db_job rawUrlOnly).external_id = "linkedin_"
    ∧ lastSlashSegment "https://x.com/jobs/view/12345" = "12345"
    ∧ (linkedin_db_job rawUrlOnly).external_id
        ≠ "linkedin_" ++ lastSlashSegment "https://x.com/jobs/view/12345" := by
  refine ⟨rfl, ?_, ?_⟩ <;> decide

/-- C7 amended: `external_id` is `"<source>_<native_id>"` with the native id
taken from the first usable candidate field and an id is always constructed
(never a failure), but the URL fallback exists only in the Monster script:
Monster falls back to the listing URL's final path segment when neither
`jobId` nor `id` is present and non-empty, while LinkedIn falls back to the
empty string. -/
theorem external_id_construction (raw : RawJob) :
    (linkedin_db_job raw).external_id = "linkedin_" ++ raw.jobId.getD (raw.id.getD "")
    ∧ (monster_db_job raw).external_id = "monster_" ++ monster_job_id raw
    ∧ ((raw.jobId = none ∨ raw.jobId = some "") →
        (raw.id = none ∨ raw.id = some "") →
        (monster_db_job raw).external_id
          = "monster_" ++ lastSlashSegment (raw.jobUrl.getD ""))
    ∧ (∀ s, raw.jobId = some s → s ≠ "" →
        (monster_db_job raw).external_id = "monster_" ++ s
        ∧ (linkedin_db_job raw).external_id = "linkedin_" ++ s) := by
  refine ⟨rfl, rfl, ?_, ?_⟩
  · intro hj hi
    cases hj <;> cases hi <;>
      simp_all [monster_db_job, monster_job_id, orTruthy]
  · intro s hj hs
    constructor <;> simp [monster_db_job, linkedin_db_job, monster_job_id, orTruthy, hj, hs]

/-- A Monster raw record with an explicit truthy `jobId`. -/
def rawWithId : RawJob :=
  { jobId := some "A1", jobUrl := some "https://x.com/jobs/view/12345" }

/-- Witness for `external_id_construction`: Monster really uses the URL's
final segment when ids are absent, and the id field when it is present. -/
theorem external_id_construction_witness :
    (monster_db_job rawUrlOnly).external_id = "monster_12345"
    ∧ (monster_db_job rawWithId).external_id = "monster_A1" := by
  constructor
  · have h := (external_id_construction rawUrlOnly).2.2.1 (Or.inl rfl) (Or.inl rfl)
    rw [h]; decide
  · exact ((external_id_construction rawWithId).2.2.2 "A1" rfl (by decide)).1

/-- A stored job row as the digest path reads it: the row id and the search
title it was scraped under. -/
structure StoredJob where
  id : Nat
  search_title : String
deriving DecidableEq, Repr

/-- The store query
`jobs?search_title=in.(titles)&order=scraped_at.desc&limit=20`:
`jobsByRecency` is the store's jobs table ordered most-recently-scraped
first; the query keeps the rows whose `search_title` is among the
subscriber's titles and caps the result at 20 rows. -/
def fetch_recent_matching (titles : List String) (jobsByRecency : List StoredJob) :
    List StoredJob :=
  (jobsByRecency.filter (fun j => titles.contains j.search_title)).take 20

/-- Embedding of `send_daily_emails.py` line 233:
`new_jobs = [j for j in all_jobs if j['id'] not in sent_job_ids]`, where
`all_jobs` is the fetch above and `sent_job_ids` the subscriber's EmailLog
entries. -/
def build_digest (sent_job_ids : List Nat) (titles : List String)
    (jobsByRecency : List StoredJob) : List StoredJob :=
  (fetch_recent_matching titles jobsByRecency).filter
    (fun j => !sent_job_ids.contains j.id)

/-- C2: the digest is the up-to-20 most-recently-scraped matching jobs minus
the jobs already in the subscriber's EmailLog — a sublist of the fetched list
(so the fetched recency order is preserved), every member matches the
preference set and is absent from the EmailLog, and at most 20 jobs result;
in particular with EmailLog {J1, J2} and matching pool {J1, J2, J3} the
digest is exactly {J3}. -/
theorem build_digest_spec (sent : List Nat) (titles : List String)
    (jobs : List StoredJob) :
    build_digest [1, 2] ["T"] [⟨1, "T"⟩, ⟨2, "T"⟩, ⟨3, "T"⟩] = [⟨3, "T"⟩]
    ∧ (build_digest sent titles jobs).Sublist (fetch_recent_matching titles jobs)
    ∧ (∀ j ∈ build_digest sent titles jobs, j.search_title ∈ titles ∧ j.id ∉ sent)
    ∧ (build_digest sent titles jobs).length ≤ 20 := by
  refine ⟨by decide, List.filter_sublist _, ?_, ?_⟩
  · intro j hj
    unfold build_digest fetch_recent_matching at hj
    obtain ⟨hmemTake, hnotSent⟩ := List.mem_filter.mp hj
    obtain ⟨hmem, hmatch⟩ := List.mem_filter.mp (List.take_subset _ _ hmemTake)
    refine ⟨?_, ?_⟩
    · simpa using hmatch
    · simpa using hnotSent
  · calc (build_digest sent titles jobs).length
        ≤ (fetch_recent_matching titles jobs).length :=
          List.length_filter_le _ _
      _ ≤ 20 := by
          unfold fetch_recent_matching
          simp

/-- Witness for `build_digest_spec`: the concrete {J1,J2} / {J1,J2,J3}
scenario, together with the membership guarantee applied to the delivered
job. -/
theorem build_digest_spec_witness :
    build_digest [1, 2] ["T"] [⟨1, "T"⟩, ⟨2, "T"⟩, ⟨3, "T"⟩] = [⟨3, "T"⟩]
    ∧ (StoredJob.mk 3 "T").search_title ∈ ["T"]
    ∧ (StoredJob.mk 3 "T").id ∉ ([1, 2] : List Nat) := by
  have h := build_digest_spec [1, 2] ["T"] [⟨1, "T"⟩, ⟨2, "T"⟩, ⟨3, "T"⟩]
  have hmem : StoredJob.mk 3 "T" ∈ build_digest [1, 2] ["T"]
      [⟨1, "T"⟩, ⟨2, "T"⟩, ⟨3, "T"⟩] := by
    rw [h.1]; exact List.mem_singleton.mpr rfl
  exact ⟨h.1, (h.2.2.1 _ hmem).1, (h.2.2.1 _ hmem).2⟩

/-- One HTTP interaction the per-subscriber loop of `send_daily_emails.py`
performs, in order. -/
inductive Action
  | fetchTitles
  | fetchSentLog
  | fetchJobs
  | sendJobsEmail (count : Nat)
  | sendNoJobsEmail
  | logWrite (jobId : Nat)
deriving DecidableEq, Repr

/-- Whether an action is an EmailLog insert (`POST /rest/v1/email_logs`). -/
def Action.isLogWrite : Action → Bool
  | .logWrite _ => true
  | _ => false

/-- The EmailLog inserts contained in a request trace. -/
def logWrites (tr : List Action) : List Action := tr.filter Action.isLogWrite

/-- The world one subscriber's loop iteration interacts with: three store
reads, and the HTTP status the Resend API answers for a jobs digest resp. a
"no jobs" email.  `Except.error` models the underlying call raising. -/
structure UserOracle where
  titlesResp : Except String (List String)
  sentResp : Except String (List Nat)
  jobsResp : Except String (List StoredJob)
  sendJobsStatus : Except String Nat
  sendEmptyStatus : Except String Nat

/-- Model of `send_email` (lines 148-170): the Resend POST is a success exactly for
HTTP status 200; any other status is logged and reported as failure — the
function itself does not raise on a non-200 status. -/
def send_email (status : Nat) : Bool := status == 200

/-- Terminal state of one subscriber in the `main` loop of
`send_daily_emails.py`. -/
inductive UserOutcome
  | skippedNoTitles
  | sentWithJobs (loggedJobIds : List Nat)
  | sendFailed
  | sentEmpty
  | emptySendFailed
  | errored (e : String)
deriving DecidableEq, Repr

/-- One iteration of the per-subscriber loop (lines 203-265), returning the
terminal outcome and the ordered trace of requests performed.  The whole body
sits in one `try/except`, so a raised store read or send POST becomes
`.errored` (recorded in the error list) instead of propagating.  Subscribers
with an empty preference list are skipped right after the titles read
(`continue`); EmailLog inserts happen only in the jobs branch and only after
`send_email` returned `True`. -/
def process_user (o : UserOracle) : UserOutcome × List Action :=
  match o.titlesResp with
  | .error e => (.errored e, [.fetchTitles])
  | .ok titles =>
    if titles = [] then (.skippedNoTitles, [.fetchTitles])
    else
      match o.sentResp with
      | .error e => (.errored e, [.fetchTitles, .fetchSentLog])
      | .ok sent =>
        match o.jobsResp with
        | .error e => (.errored e, [.fetchTitles, .fetchSentLog, .fetchJobs])
        | .ok allJobs =>
          let newJobs := allJobs.filter (fun j => !sent.contains j.id)
          if newJobs ≠ [] then
            match o.sendJobsStatus with
            | .error e =>
              (.errored e,
               [.fetchTitles, .fetchSentLog, .fetchJobs, .sendJobsEmail newJobs.length])
            | .ok status =>
              if send_email status then
                (.sentWithJobs (newJobs.map (·.id)),
                 [.fetchTitles, .fetchSentLog, .fetchJobs, .sendJobsEmail newJobs.length]
                   ++ newJobs.map (fun j => .logWrite j.id))
              else
                (.sendFailed,
                 [.fetchTitles, .fetchSentLog, .fetchJobs, .sendJobsEmail newJobs.length])
          else
            match o.sendEmptyStatus with
            | .error e =>
              (.errored e, [.fetchTitles, .fetchSentLog, .fetchJobs, .sendNoJobsEmail])
            | .ok status =>
              if send_email status then
                (.sentEmpty, [.fetchTitles, .fetchSentLog, .fetchJobs, .sendNoJobsEmail])
              else
                (.emptySendFailed,
                 [.fetchTitles, .fetchSentLog, .fetchJobs, .sendNoJobsEmail])

/-- C3: delivery receipts are created only after a confirmed successful send.
For a subscriber with new jobs, the trace contains one EmailLog insert per
delivered job exactly when the Resend POST answered 200; on any other status
zero EmailLog inserts happen and the subscriber ends in the failed state, so
the same jobs will be re-attempted on the next run. -/
theorem email_log_iff_send_success (o : UserOracle) (titles : List String)
    (sent : List Nat) (allJobs : List StoredJob) (status : Nat)
    (ht : o.titlesResp = .ok titles) (hnet : titles ≠ [])
    (hs : o.sentResp = .ok sent) (hj : o.jobsResp = .ok allJobs)
    (hstat : o.sendJobsStatus = .ok status)
    (hnew : allJobs.filter (fun j => !sent.contains j.id) ≠ []) :
    logWrites (process_user o).2
      = (if status = 200 then
          (allJobs.filter (fun j => !sent.contains j.id)).map (fun j => .logWrite j.id)
        else [])
    ∧ (process_user o).1
      = (if status = 200 then
          .sentWithJobs ((allJobs.filter (fun j => !sent.contains j.id)).map (·.id))
        else .sendFailed) := by
  by_cases h200 : status = 200 <;>
    simp_all [process_user, send_email, logWrites, Action.isLogWrite, List.filter_append,
      List.filter_map, Function.comp]

/-- Oracle of a subscriber with one new job whose send succeeds (HTTP 200). -/
def userOracleOkSend : UserOracle :=
  { titlesResp := .ok ["T"], sentResp := .ok [1, 2],
    jobsResp := .ok [⟨1, "T"⟩, ⟨2, "T"⟩, ⟨3, "T"⟩],
    sendJobsStatus := .ok 200, sendEmptyStatus := .ok 200 }

/-- The same subscriber but the send fails with HTTP 500. -/
def userOracleFailSend : UserOracle :=
  { titlesResp := .ok ["T"], sentResp := .ok [1, 2],
    jobsResp := .ok [⟨1, "T"⟩, ⟨2, "T"⟩, ⟨3, "T"⟩],
    sendJobsStatus := .ok 500, sendEmptyStatus := .ok 200 }

/-- Witness for `email_log_iff_send_success`: one log write after a 200
send, none after a 500 send. -/
theorem email_log_iff_send_success_witness :
    logWrites (process_user userOracleOkSend).2 = [Action.logWrite 3]
    ∧ logWrites (process_user userOracleFailSend).2 = [] := by
  have h1 := email_log_iff_send_success userOracleOkSend ["T"] [1, 2]
    [⟨1, "T"⟩, ⟨2, "T"⟩, ⟨3, "T"⟩] 200 rfl (by decide) rfl rfl rfl (by decide)
  have h2 := email_log_iff_send_success userOracleFailSend ["T"] [1, 2]
    [⟨1, "T"⟩, ⟨2, "T"⟩, ⟨3, "T"⟩] 500 rfl (by decide) rfl rfl rfl (by decide)
  refine ⟨?_, ?_⟩
  · rw [h1.1]; decide
  · rw [h2.1]; decide

/-- C8: a subscriber with zero job-title preferences is skipped entirely —
after the titles read the loop `continue`s: no EmailLog or jobs fetch is
performed and neither a digest nor a "no jobs" email is attempted. -/
theorem empty_preferences_skip (o : UserOracle) (h : o.titlesResp = .ok []) :
    process_user o = (.skippedNoTitles, [.fetchTitles])
    ∧ Action.fetchJobs ∉ (process_user o).2
    ∧ Action.fetchSentLog ∉ (process_user o).2
    ∧ Action.sendNoJobsEmail ∉ (process_user o).2
    ∧ (∀ n, Action.sendJobsEmail n ∉ (process_user o).2) := by
  have hp : process_user o = (.skippedNoTitles, [.fetchTitles]) := by
    simp [process_user, h]
  refine ⟨hp, ?_, ?_, ?_, ?_⟩ <;> rw [hp] <;> simp

/-- Oracle of a subscriber with no configured titles. -/
def emptyPrefOracle : UserOracle :=
  { titlesResp := .ok [], sentResp := .ok [], jobsResp := .ok [],
    sendJobsStatus := .ok 200, sendEmptyStatus := .ok 200 }

/-- Witness for `empty_preferences_skip`. -/
theorem empty_preferences_skip_witness :
    process_user emptyPrefOracle = (.skippedNoTitles, [.fetchTitles]) :=
  (empty_preferences_skip emptyPrefOracle rfl).1

/-- Whether a terminal subscriber state appends an entry to the run's error
list (`errors.append(...)` on a failed send or a caught exception). -/
def addsError : UserOutcome → Bool
  | .sendFailed => true
  | .emptySendFailed => true
  | .errored _ => true
  | _ => false

/-- Result of one invocation of the digest script: the process exit code,
the per-subscriber outcomes, and the length of the final error list. -/
structure RunReport where
  exitCode : Nat
  outcomes : List UserOutcome
  errorCount : Nat
deriving DecidableEq, Repr

/-- Model of `main` in `send_daily_emails.py` (lines 173-274): exit 1 when the
Supabase configuration is absent (lines 179-181); the subscriber-list GET
(`raise_for_status`, line 194) has no handler, so its raising terminates the
process with a non-zero exit (exit code 1, an uncaught Python exception);
otherwise every subscriber is processed inside the per-user `try/except` and
the script falls off the end of `main` — exit code 0 — after printing the
counts and the trailing error list. -/
def digest_main (supabaseConfigured : Bool)
    (usersResp : Except String (List UserOracle)) : RunReport :=
  if ¬ supabaseConfigured then ⟨1, [], 0⟩
  else
    match usersResp with
    | .error _ => ⟨1, [], 0⟩
    | .ok users =>
      let outs := users.map (fun u => (process_user u).1)
      ⟨0, outs, outs.countP addsError⟩

/-- C10 counterexample: with the Supabase configuration missing the digest
script exits 1, not 0 — it does not always exit with code 0. -/
theorem digest_exit_counterexample :
    (digest_main false (.ok [])).exitCode = 1
    ∧ (digest_main false (.ok [])).exitCode ≠ 0 := by
  refine ⟨rfl, by decide⟩

/-- C10 amended: the digest script takes no arguments; when the Supabase
configuration is present and the subscriber-list fetch succeeds, it exits 0
and processes every subscriber — an exception in one subscriber's step
becomes an `.errored` entry in the error list without halting the remaining
subscribers — ending normally with the counts and trailing error list; with
the configuration missing, or with the subscriber-list fetch raising, the
process instead exits 1. -/
theorem digest_main_spec (users : List UserOracle)
    (usersResp : Except String (List UserOracle)) (e : String) :
    (digest_main true (.ok users)).exitCode = 0
    ∧ (digest_main true (.ok users)).outcomes.length = users.length
    ∧ (digest_main true (.ok users)).errorCount
        = ((digest_main true (.ok users)).outcomes.countP addsError)
    ∧ (∀ pre bad post, users = pre ++ bad :: post →
        (digest_main true (.ok users)).outcomes
          = pre.map (fun u => (process_user u).1)
            ++ (process_user bad).1 :: post.map (fun u => (process_user u).1))
    ∧ (digest_main false usersResp).exitCode = 1
    ∧ (digest_main true (.error e)).exitCode = 1 := by
  refine ⟨rfl, by simp [digest_main], rfl, ?_, by simp [digest_main], rfl⟩
  intro pre bad post hu
  subst hu
  simp [digest_main]

/-- Oracle of a subscriber whose titles fetch raises. -/
def erroringUserOracle : UserOracle :=
  { titlesResp := .error "boom", sentResp := .ok [], jobsResp := .ok [],
    sendJobsStatus := .ok 200, sendEmptyStatus := .ok 200 }

/-- Witness for `digest_main_spec`: a run over one raising subscriber
followed by a healthy one still exits 0 and reaches the second subscriber. -/
theorem digest_main_spec_witness :
    (digest_main true (.ok [erroringUserOracle, emptyPrefOracle])).exitCode = 0
    ∧ (digest_main true (.ok [erroringUserOracle, emptyPrefOracle])).outcomes
        = [.errored "boom", .skippedNoTitles] := by
  have h := digest_main_spec [erroringUserOracle, emptyPrefOracle] (.ok []) "x"
  refine ⟨h.1, ?_⟩
  have h4 := h.2.2.2.1 [] erroringUserOracle [emptyPrefOracle] rfl
  rw [h4]
  decide

/-- Title resolution in both scrapers' `main`: CLI-supplied titles are used
exactly as given (`job_titles = sys.argv[1:]` in `scrape_linkedin.py`,
`args.job_titles` in `scrape_monster.py`); only when none were supplied are
the store's titles fetched and deduplicated via `list(set(...))` (modelled
as `List.dedup`; the Python set is unordered and the spec promises no
order). -/
def resolve_titles (cliTitles : List String) (storeTitles : List String) :
    List String :=
  if cliTitles ≠ [] then cliTitles else storeTitles.dedup

/-- C9 counterexample: titles supplied as CLI arguments are NOT deduplicated
— invoking a scraper with the same title twice submits it twice. -/
theorem resolve_titles_counterexample :
    resolve_titles ["Engineer", "Engineer"] [] = ["Engineer", "Engineer"]
    ∧ ¬ (resolve_titles ["Engineer", "Engineer"] []).Nodup := by
  exact ⟨rfl, by decide⟩

/-- C9 amended: only store-fetched titles are deduplicated — when no CLI
titles are supplied the submitted list has no duplicates and contains
exactly the store's distinct titles; CLI-supplied titles are submitted
verbatim and may contain duplicates. -/
theorem resolve_titles_spec (cli store : List String) :
    (cli = [] →
      (resolve_titles cli store).Nodup
      ∧ ∀ t, t ∈ resolve_titles cli store ↔ t ∈ store)
    ∧ (cli ≠ [] → resolve_titles cli store = cli) := by
  constructor
  · intro h
    subst h
    refine ⟨?_, fun t => by simp [resolve_titles]⟩
    simp only [resolve_titles, ne_eq, not_true_eq_false, if_false]
    exact List.nodup_dedup store
  · intro h
    simp [resolve_titles, h]

/-- Witness for `resolve_titles_spec`: store titles `A, B, A` collapse to a
duplicate-free list; CLI titles pass through unchanged. -/
theorem resolve_titles_spec_witness :
    (resolve_titles [] ["A", "B", "A"]).Nodup
    ∧ resolve_titles ["A", "A"] ["B"] = ["A", "A"] :=
  ⟨((resolve_titles_spec [] ["A", "B", "A"]).1 rfl).1,
   (resolve_titles_spec ["A", "A"] ["B"]).2 (by decide)⟩

end JobListings
